import Mathlib

/-!
Verification of the dataset-collector scripts (eurostat_waste_collect.py,
unido_collect.py, with the prodcom unit-test suite as secondary evidence).

The orchestrators perform I/O through a small set of collaborator calls
(version fetch, column fetch, description fetch, catalog lookup, data
download, metadata download, catalog commit).  We embed them as pure
functions over an explicit environment of fallible oracles
(`Except Err` models a Python call that may raise), and record every
outward-visible call as an `Event` so that claims about "which calls
happen on which path" become statements about the produced event list.
-/

namespace Aau

abbrev Err := String

/-- Embedding of the `DataResource` record as constructed in
`eurostat_waste_collect.eurostat_collect` (all fields are strings). -/
structure DataResource where
  name : String
  schema_name : String
  location : String
  task_name : String
  stage : String
  data_flow_direction : String
  data_version : String
  code_version : String
  comment : String
  created_by : String
  license : String
  license_url : String
  description : String
  url : String
deriving DecidableEq

/-- Outward-visible calls made by `eurostat_collect`, in program order:
`get_data_version`, `get_data_columns`, `get_data_description`,
`repo.get_latest_version`, `get_data`, `get_metadata`,
`repo.add_or_update_resource_list`. -/
inductive Event where
  | fetchVersion (dataset : String)
  | fetchColumns (dataset : String)
  | fetchDescription (dataset : String)
  | getLatest (name stage task : String)
  | getData (dataset location : String)
  | getMetadataCall (id mtype saveDir : String)
  | commit (r : DataResource)
deriving DecidableEq

/-- Oracles for the collaborator calls of `eurostat_collect`.  An
`Except.error` result models the Python call raising an exception. -/
structure Env where
  onlineVersion : String → Except Err String
  columns : String → Except Err (List String)
  description : String → Except Err String
  latestVersion : String → String → String → Except Err String
  dataFetch : String → String → Except Err Unit

/-- Module-level constant `base_url` of eurostat_waste_collect.py. -/
def base_url : String := "https://ec.europa.eu/eurostat/api/dissemination/sdmx/2.1/"

/-- Module-level constant `datasets` of eurostat_waste_collect.py. -/
def datasets : List String :=
  ["ENPS_ENV_WASGENH", "ENPS_ENV_WASGENM", "ENPS_ENV_WASTRT", "ENPS_ENV_WAT_ABS",
   "ENPS_ENV_WAT_CAT", "ENV_WASBAT", "ENV_WASELEE", "ENV_WASELEEOS",
   "ENV_WASELV", "ENV_WASELVT", "ENV_WASFLOW", "ENV_WASFW", "ENV_WASGEN",
   "ENV_WASMUN", "ENV_WASOPER", "ENV_WASPAC", "ENV_WASPACR", "ENV_WASPB",
   "ENV_WASPCB", "ENV_WASSHIP", "ENV_WASTRDMP", "ENV_WASTRT", "ENV_WW_SPD"]

/-- Module-level constant `metadata_types` of eurostat_waste_collect.py. -/
def metadata_types : List String := ["dataflow", "codelist", "conceptscheme"]

/-- Resource name `f'eurostat_waste_{dataset}'` (line 296). -/
def resName (dataset : String) : String := "eurostat_waste_" ++ dataset

/-- The location template of line 312:
`f"collect/eurostat/{dataset}/{resource.data_version}"`. -/
def eurostatLocation (dataset v : String) : String :=
  "collect/eurostat/" ++ dataset ++ "/" ++ v

/-- The fresh `DataResource` built at lines 295-310 of
eurostat_waste_collect.py (sentinel version, empty location). -/
def initResource (dataset : String) : DataResource :=
  { name := resName dataset
    schema_name := "None"
    location := ""
    task_name := "eurostat_waste_collect"
    stage := "collect"
    data_flow_direction := "output"
    data_version := "00000000"
    code_version := "0.0.0"
    comment := "Waste data and metadata collected from eurostat for dataset " ++ dataset
    created_by := "Albert K. Osei-Owusu"
    license := "Open Data Commons Public Domain Dedication (CC-BY 4.0)"
    license_url := "https://creativecommons.org/licenses/by-sa/4.0/legalcode"
    description := ""
    url := "" }

/-- The metadata loop of lines 327-332 / 342-347: for each metadata type,
one `get_metadata` call per column id for `codelist`, otherwise a single
call keyed by the dataset id, all into `f'{resource.location}/metadata'`. -/
def metadataEvents (dataset : String) (codeList : List String) (loc : String) : List Event :=
  metadata_types.flatMap fun m =>
    if m = "codelist" then
      codeList.map fun id => Event.getMetadataCall id m (loc ++ "/metadata")
    else
      [Event.getMetadataCall dataset m (loc ++ "/metadata")]

/-- The shared sync body (lines 324-334 and 336-349): set
`resource.data_version := dv`, call `get_data(dataset, resource.location)`
(whose failure propagates), set the description, run the metadata loop,
and commit the resource.  Note the source never recomputes
`resource.location` after updating `data_version`. -/
def sync_steps (env : Env) (dataset : String) (r1 : DataResource) (dv desc : String)
    (codeList : List String) : List Event × Except Err Bool :=
  let r2 := { r1 with data_version := dv }
  match env.dataFetch dataset r2.location with
  | .error e => ([Event.getData dataset r2.location], .error e)
  | .ok _ =>
    let r3 := { r2 with description := desc }
    (Event.getData dataset r2.location ::
      (metadataEvents dataset codeList r3.location ++ [Event.commit r3]), .ok true)

/-- One iteration of the dataset loop of `eurostat_collect`
(lines 294-349).  The catalog lookup is wrapped in a bare
`try/except -> None` (lines 318-321); Python's `if latest_version:` is
truthiness, i.e. present-and-nonempty.  Every other exception propagates
(there is no enclosing handler in the loop body). -/
def collect_one (env : Env) (dataset : String) : List Event × Except Err Bool :=
  let r0 := initResource dataset
  let r1 := { r0 with location := eurostatLocation dataset r0.data_version }
  match env.onlineVersion dataset with
  | .error e => ([Event.fetchVersion dataset], .error e)
  | .ok online =>
  match env.columns dataset with
  | .error e => ([Event.fetchVersion dataset, Event.fetchColumns dataset], .error e)
  | .ok codeList =>
  match env.description dataset with
  | .error e =>
      ([Event.fetchVersion dataset, Event.fetchColumns dataset,
        Event.fetchDescription dataset], .error e)
  | .ok desc =>
  let pre := [Event.fetchVersion dataset, Event.fetchColumns dataset,
              Event.fetchDescription dataset, Event.getLatest r1.name r1.stage r1.task_name]
  let latest : Option String :=
    match env.latestVersion r1.name r1.stage r1.task_name with
    | .ok v => some v
    | .error _ => none
  let step : List Event × Except Err Bool :=
    match latest with
    | some v =>
      if v ≠ "" then
        if v ≠ online then sync_steps env dataset r1 online desc codeList
        else ([], .ok false)
      else sync_steps env dataset r1 (if online ≠ "" then online else "00000000") desc codeList
    | none => sync_steps env dataset r1 (if online ≠ "" then online else "00000000") desc codeList
  (pre ++ step.1, step.2)

/-- The `for dataset in datasets:` loop with the running `did_update`
flag.  An uncaught exception in an iteration propagates out of
`eurostat_collect`, so later datasets are not reached. -/
def collect_loop (env : Env) : List String → Bool → List Event × Except Err Bool
  | [], acc => ([], .ok acc)
  | d :: ds, acc =>
    let (evs, r) := collect_one env d
    match r with
    | .error e => (evs, .error e)
    | .ok upd =>
      let (evs2, r2) := collect_loop env ds (acc || upd)
      (evs ++ evs2, r2)

/-- Embedding of `eurostat_collect(config)` (lines 287-350). -/
def eurostat_collect (env : Env) : List Event × Except Err Bool :=
  collect_loop env datasets false

/-- `True` exactly for primary-data fetch events (`get_data` calls). -/
def isDataFetch : Event → Bool
  | .getData _ _ => true
  | _ => false

/-- `True` exactly for auxiliary metadata fetch events (`get_metadata` calls). -/
def isMetadataFetch : Event → Bool
  | .getMetadataCall _ _ _ => true
  | _ => false

/-- `True` exactly for catalog commit events (`add_or_update_resource_list`). -/
def isCommit : Event → Bool
  | .commit _ => true
  | _ => false

/-! ## unido_collect.py -/

/-- Embedding of the `DataResource` records built in
`unido_collect.unido_collect` (lines 165-187); `data_version` is not
passed to the constructor there, so its initial value is the schema
default, kept abstract as a parameter of `unido_required_resources`. -/
structure UResource where
  name : String
  schema_name : String
  task_name : String
  stage : String
  location : String
  comment : String
  created_by : String
  license : String
  license_url : String
  data_version : String
deriving DecidableEq

/-- Outward-visible calls made by `unido_collect`: `get_data_version`,
`repo.get_latest_version`, `download_unido_data`,
`repo.add_or_update_resource_list`. -/
inductive UEvent where
  | fetchVersion (name : String)
  | getLatest (name stage task : String)
  | download (name location : String)
  | commit (r : UResource)
deriving DecidableEq

/-- Oracles for the collaborator calls of `unido_collect`. -/
structure UEnv where
  onlineVersion : String → Except Err String
  latestVersion : String → String → String → Except Err String
  download : String → String → Except Err Unit

/-- The fixed `required_resources` list of `unido_collect`
(lines 165-187); note both `location` fields keep the literal,
never-substituted placeholder `"collect/unido/.../{version}"`.
`dv0` is the unknown schema default for the unset `data_version`. -/
def unido_required_resources (dv0 : String) : List UResource :=
  [{ name := "INDSTAT"
     schema_name := "None"
     task_name := "unido"
     stage := "collect"
     location := "collect/unido/INDSTAT/{version}"
     comment := "Data collected from UNIDO for INDSTAT"
     created_by := "Cæcilia Lind Skov-Jensen"
     license := "Creative Commons Attribution 4.0 International License"
     license_url := "https://stat.unido.org/terms-and-conditions"
     data_version := dv0 },
   { name := "IDSB"
     schema_name := "None"
     task_name := "unido"
     stage := "collect"
     location := "collect/unido/IDSB/{version}"
     comment := "Data collected from UNIDO for IDSB"
     created_by := "Cæcilia Lind Skov-Jensen"
     license := "Creative Commons Attribution 4.0 International License"
     license_url := "https://stat.unido.org/terms-and-conditions"
     data_version := dv0 }]

/-- The sync body of `unido_collect` (lines 202-204 / 207-212):
`download_unido_data(resource.name, resource.location)` (failure
propagates) and then the commit; `resource.location` is never changed. -/
def unido_sync (env : UEnv) (r2 : UResource) : List UEvent × Except Err Bool :=
  match env.download r2.name r2.location with
  | .error e => ([UEvent.download r2.name r2.location], .error e)
  | .ok _ => ([UEvent.download r2.name r2.location, UEvent.commit r2], .ok true)

/-- One iteration of the `for resource in required_resources:` loop of
`unido_collect` (lines 193-213), with the same bare
`try/except -> None` around the catalog lookup, Python truthiness on
`if latest_version:` and `if online_version:`, and sentinel `"YYYY"`. -/
def unido_collect_one (env : UEnv) (r : UResource) : List UEvent × Except Err Bool :=
  match env.onlineVersion r.name with
  | .error e => ([UEvent.fetchVersion r.name], .error e)
  | .ok online =>
  let pre := [UEvent.fetchVersion r.name, UEvent.getLatest r.name r.stage r.task_name]
  let latest : Option String :=
    match env.latestVersion r.name r.stage r.task_name with
    | .ok v => some v
    | .error _ => none
  let step : List UEvent × Except Err Bool :=
    match latest with
    | some v =>
      if v ≠ "" then
        if v ≠ online then unido_sync env { r with data_version := online }
        else ([], .ok false)
      else unido_sync env { r with data_version := if online ≠ "" then online else "YYYY" }
    | none => unido_sync env { r with data_version := if online ≠ "" then online else "YYYY" }
  (pre ++ step.1, step.2)

/-- The resource loop of `unido_collect` with the `did_update` flag;
an uncaught exception propagates and skips the remaining resources. -/
def unido_loop (env : UEnv) : List UResource → Bool → List UEvent × Except Err Bool
  | [], acc => ([], .ok acc)
  | r :: rs, acc =>
    let (evs, res) := unido_collect_one env r
    match res with
    | .error e => (evs, .error e)
    | .ok upd =>
      let (evs2, res2) := unido_loop env rs (acc || upd)
      (evs ++ evs2, res2)

/-- Embedding of `unido_collect(config)` (lines 163-215). -/
def unido_collect (env : UEnv) (dv0 : String) : List UEvent × Except Err Bool :=
  unido_loop env (unido_required_resources dv0) false

/-- `True` exactly for unido commit events. -/
def isUCommit : UEvent → Bool
  | .commit _ => true
  | _ => false

/-! ## get_metadata / get_data (eurostat_waste_collect.py) -/

/-- Steps of `get_metadata` visible from outside: the index refresh
(`get_datasets_info`), the structure-URL HTTP request, the zip save, and
the two log severities used on the non-success paths. -/
inductive MEvent where
  | indexFetch (mtype : String)
  | httpGet (url : String)
  | saveZip (id saveDir : String)
  | logWarning
  | logError
deriving DecidableEq

/-- Oracles for the fallible steps inside `get_metadata`'s `try` block.
The index table (`pd.read_csv(f'{metadata_type}.csv')`) is a list of
rows `(id, structureURL)`. -/
structure MEnv where
  makedirs : String → Except Err Unit
  datasetsInfo : String → Except Err Unit
  readIndex : String → Except Err (List (String × String))
  removeFile : String → Except Err Unit
  httpGet : String → Except Err String

/-- The `try` block of `get_metadata` (lines 159-184): make the save
directory, refresh and read the `metadata_type` index, delete the two
temporary files, filter the row whose `id` matches; if none, log a
warning and return; otherwise GET the row's `structureURL` and save the
prettified XML zip (`save_prettified_xml_to_zip` itself never raises). -/
def get_metadata_try (env : MEnv) (id mtype saveDir : String) :
    List MEvent × Except Err Unit :=
  match env.makedirs saveDir with
  | .error e => ([], .error e)
  | .ok _ =>
  match env.datasetsInfo mtype with
  | .error e => ([MEvent.indexFetch mtype], .error e)
  | .ok _ =>
  match env.readIndex mtype with
  | .error e => ([MEvent.indexFetch mtype], .error e)
  | .ok df =>
  match env.removeFile (mtype ++ ".csv") with
  | .error e => ([MEvent.indexFetch mtype], .error e)
  | .ok _ =>
  match env.removeFile (mtype ++ ".xml") with
  | .error e => ([MEvent.indexFetch mtype], .error e)
  | .ok _ =>
  match df.filter (fun r => r.1 = id) with
  | [] => ([MEvent.indexFetch mtype, MEvent.logWarning], .ok ())
  | row :: _ =>
    match env.httpGet row.2 with
    | .error e => ([MEvent.indexFetch mtype], .error e)
    | .ok _ =>
      ([MEvent.indexFetch mtype, MEvent.httpGet row.2, MEvent.saveZip id saveDir], .ok ())

/-- `get_metadata` (lines 137-187): the whole body runs inside
`try/except Exception`, which logs the error and falls off the end, so
the function itself always returns normally. -/
def get_metadata (env : MEnv) (id mtype saveDir : String) :
    List MEvent × Except Err Unit :=
  match get_metadata_try env id mtype saveDir with
  | (evs, .ok u) => (evs, .ok u)
  | (evs, .error _) => (evs ++ [MEvent.logError], .ok ())

/-- `get_data` (lines 262-284): a single `save_request` call on the data
URL with no surrounding handler, so any exception propagates. -/
def get_data (saveRequest : String → String → Except Err Unit)
    (dataset saveDir : String) : Except Err Unit :=
  saveRequest (base_url ++ "data/" ++ dataset ++ "/?format=SDMX-CSV&compressed=true&i") saveDir

/-! ## prettify_data (eurostat_waste_collect.py lines 33-65)

The library parsers/renderers (`json.loads`+`json.dumps`,
`xml.dom.minidom.parseString`+`toprettyxml`, `pd.read_csv`+`to_csv`) are
external collaborators, passed in as fallible oracles; `Except.error`
models the library call raising. -/

/-- `prettify_data(data, file_extension)`: only the `.xml` branch is
wrapped in `try/except` (returning the original data on failure); the
`.json`, `.csv` and `.tsv` branches call the parser bare, so a parse
error propagates; unknown extensions return the data unchanged. -/
def prettify_data (parseJson parseXml parseCsv parseTsv : String → Except Err String)
    (data ext : String) : Except Err String :=
  if ext = ".json" then parseJson data
  else if ext = ".xml" then
    match parseXml data with
    | .ok pretty => .ok pretty
    | .error _ => .ok data
  else if ext = ".csv" then parseCsv data
  else if ext = ".tsv" then parseTsv data
  else .ok data

/-! ## get_data_version (eurostat_waste_collect.py lines 190-209) -/

/-- Python `str.split(sep)` for a one-character separator, on the
character list of the string (always returns a nonempty list;
`''.split(sep) == ['']`). -/
def splitChar (sep : Char) : List Char → List (List Char)
  | [] => [[]]
  | c :: cs =>
    if c = sep then [] :: splitChar sep cs
    else
      match splitChar sep cs with
      | [] => [[c]]
      | h :: t => (c :: h) :: t

/-- Line 206 of `get_data_version`:
`version = (root[0][2].text).split('T')[0].replace('-','')` — take the
part of the header timestamp before the first `'T'` and delete every
`'-'` from it. -/
def get_data_version_stamp (timestamp : List Char) : List Char :=
  ((splitChar 'T' timestamp).headD []).filter (fun c => c ≠ '-')

/-! ## get_data_description (eurostat_waste_collect.py lines 241-259) -/

/-- Modelled from the spec: pandas `Series.to_string(index=False)` is an
external collaborator (not in src/); per its documented behavior it
renders an empty Series as the placeholder text `"Series([], )"` and a
nonempty one as the values, one per line. -/
def to_string_noindex : List String → String
  | [] => "Series([], )"
  | [v] => v
  | v :: vs => v ++ "\n" ++ to_string_noindex vs

/-- `get_data_description(dataset)` (lines 254-259): read the dataflow
index (rows `(id, name)`), filter the rows whose `id` equals the
dataset, and return `to_string(index=False)` of their `name` column. -/
def get_data_description (dataflowTable : List (String × String)) (dataset : String) : String :=
  to_string_noindex ((dataflowTable.filter (fun r => r.1 = dataset)).map (fun r => r.2))

/-! ## Helper definitions and normal-form lemmas for the orchestrators -/

/-- The four events each eurostat dataset pass emits before the version
gate: version, columns, description fetches and the catalog lookup. -/
def preEvents (d : String) : List Event :=
  [Event.fetchVersion d, Event.fetchColumns d, Event.fetchDescription d,
   Event.getLatest (resName d) "collect" "eurostat_waste_collect"]

/-- The descriptor as committed on a sync path: version and description
updated, but `location` still the one computed from the sentinel. -/
def syncResource (d dv desc : String) : DataResource :=
  { initResource d with
      location := eurostatLocation d "00000000"
      data_version := dv
      description := desc }

/-- The catalog's recorded version for a dataset as `eurostat_collect`
sees it: `some v` when the lookup returns, `none` when it raises. -/
def recordedOf (env : Env) (d : String) : Option String :=
  match env.latestVersion (resName d) "collect" "eurostat_waste_collect" with
  | .ok v => some v
  | .error _ => none

/-- Same for `unido_collect`. -/
def urecordedOf (env : UEnv) (r : UResource) : Option String :=
  match env.latestVersion r.name r.stage r.task_name with
  | .ok v => some v
  | .error _ => none

/-- `True` exactly for unido download events. -/
def isUDownload : UEvent → Bool
  | .download _ _ => true
  | _ => false

/-- "The catalog already holds the observed version for dataset `d` and
all pre-gate fetches succeed": the hypothesis of the no-op run. -/
def SkipHyp (env : Env) (d : String) : Prop :=
  ∃ online cols desc,
    env.onlineVersion d = .ok online ∧
    env.columns d = .ok cols ∧
    env.description d = .ok desc ∧
    env.latestVersion (resName d) "collect" "eurostat_waste_collect" = .ok online ∧
    online ≠ ""

theorem collect_one_skip (env : Env) (d online : String) (cols : List String) (desc : String)
    (hv : env.onlineVersion d = .ok online)
    (hc : env.columns d = .ok cols)
    (hd : env.description d = .ok desc)
    (hl : env.latestVersion (resName d) "collect" "eurostat_waste_collect" = .ok online)
    (hne : online ≠ "") :
    collect_one env d = (preEvents d, .ok false) := by
  simp [collect_one, initResource, preEvents, hv, hc, hd, hl, hne]

theorem collect_one_new (env : Env) (d online : String) (cols : List String)
    (desc err : String)
    (hv : env.onlineVersion d = .ok online)
    (hc : env.columns d = .ok cols)
    (hd : env.description d = .ok desc)
    (hl : env.latestVersion (resName d) "collect" "eurostat_waste_collect" = .error err)
    (hf : env.dataFetch d (eurostatLocation d "00000000") = .ok ()) :
    collect_one env d =
      (preEvents d ++
        (Event.getData d (eurostatLocation d "00000000") ::
          (metadataEvents d cols (eurostatLocation d "00000000") ++
            [Event.commit
              (syncResource d (if online ≠ "" then online else "00000000") desc)])),
       .ok true) := by
  simp [collect_one, sync_steps, initResource, preEvents, syncResource,
        hv, hc, hd, hl, hf]

theorem collect_one_update (env : Env) (d online v : String) (cols : List String)
    (desc : String)
    (hv : env.onlineVersion d = .ok online)
    (hc : env.columns d = .ok cols)
    (hd : env.description d = .ok desc)
    (hl : env.latestVersion (resName d) "collect" "eurostat_waste_collect" = .ok v)
    (hvne : v ≠ "")
    (hdiff : v ≠ online)
    (hf : env.dataFetch d (eurostatLocation d "00000000") = .ok ()) :
    collect_one env d =
      (preEvents d ++
        (Event.getData d (eurostatLocation d "00000000") ::
          (metadataEvents d cols (eurostatLocation d "00000000") ++
            [Event.commit (syncResource d online desc)])), .ok true) := by
  simp [collect_one, sync_steps, initResource, preEvents, syncResource,
        hv, hc, hd, hl, hvne, hdiff, hf]

theorem collect_loop_skip (env : Env) :
    ∀ (ds : List String) (acc : Bool), (∀ d ∈ ds, SkipHyp env d) →
      collect_loop env ds acc = (ds.flatMap preEvents, .ok acc)
  | [], acc, _ => by simp [collect_loop]
  | d :: ds, acc, h => by
    obtain ⟨online, cols, desc, hv, hc, hd, hl, hne⟩ := h d (by simp)
    have hone := collect_one_skip env d online cols desc hv hc hd hl hne
    have hrest := collect_loop_skip env ds (acc || false) (fun x hx => h x (by simp [hx]))
    simp only [Bool.or_false] at hrest
    simp [collect_loop, hone, hrest]

theorem unido_collect_one_skip (env : UEnv) (r : UResource) (online : String)
    (hv : env.onlineVersion r.name = .ok online)
    (hl : env.latestVersion r.name r.stage r.task_name = .ok online)
    (hne : online ≠ "") :
    unido_collect_one env r =
      ([UEvent.fetchVersion r.name, UEvent.getLatest r.name r.stage r.task_name],
       .ok false) := by
  simp [unido_collect_one, hv, hl, hne]

theorem unido_collect_one_new (env : UEnv) (r : UResource) (online err : String)
    (hv : env.onlineVersion r.name = .ok online)
    (hl : env.latestVersion r.name r.stage r.task_name = .error err)
    (hf : env.download r.name r.location = .ok ()) :
    unido_collect_one env r =
      ([UEvent.fetchVersion r.name, UEvent.getLatest r.name r.stage r.task_name,
        UEvent.download r.name r.location,
        UEvent.commit
          { r with data_version := if online ≠ "" then online else "YYYY" }],
       .ok true) := by
  simp [unido_collect_one, unido_sync, hv, hl, hf]

theorem unido_collect_one_update (env : UEnv) (r : UResource) (online v : String)
    (hv : env.onlineVersion r.name = .ok online)
    (hl : env.latestVersion r.name r.stage r.task_name = .ok v)
    (hvne : v ≠ "")
    (hdiff : v ≠ online)
    (hf : env.download r.name r.location = .ok ()) :
    unido_collect_one env r =
      ([UEvent.fetchVersion r.name, UEvent.getLatest r.name r.stage r.task_name,
        UEvent.download r.name r.location,
        UEvent.commit { r with data_version := online }], .ok true) := by
  simp [unido_collect_one, unido_sync, hv, hl, hvne, hdiff, hf]

theorem flatMap_preEvents_any (ds : List String) (p : Event → Bool)
    (hp : ∀ d, (preEvents d).any p = false) :
    (ds.flatMap preEvents).any p = false := by
  induction ds with
  | nil => simp
  | cons d ds ih => simp [List.flatMap_cons, List.any_append, hp, ih]

theorem splitChar_ne_nil (sep : Char) (cs : List Char) : splitChar sep cs ≠ [] := by
  induction cs with
  | nil => simp [splitChar]
  | cons c cs ih =>
    simp only [splitChar]
    split
    · simp
    · split
      · simp
      · simp

theorem splitChar_headD (sep : Char) (cs : List Char) :
    (splitChar sep cs).headD [] = cs.takeWhile (fun c => c ≠ sep) := by
  induction cs with
  | nil => simp [splitChar]
  | cons c cs ih =>
    by_cases h : c = sep
    · subst h
      simp [splitChar, List.takeWhile_cons]
    · simp only [splitChar, if_neg h]
      cases hs : splitChar sep cs with
      | nil => exact absurd hs (splitChar_ne_nil sep cs)
      | cons a t =>
        rw [hs] at ih
        simp only [List.headD_cons] at ih
        simp [List.takeWhile_cons, h, ih]

theorem takeWhile_before_sep (date rest : List Char) (h : 'T' ∉ date) :
    (date ++ 'T' :: rest).takeWhile (fun c => c ≠ 'T') = date := by
  induction date with
  | nil => simp [List.takeWhile_cons]
  | cons c cs ih =>
    simp only [List.mem_cons, not_or] at h
    have hc : ¬(c = 'T') := fun hh => h.1 hh.symm
    have ih2 := ih h.2
    simp only [ne_eq, decide_not] at ih2 ⊢
    simp [List.takeWhile_cons, hc, ih2]

/-! ## Concrete environments used by the witnesses and counterexamples -/

/-- First-sync scenario: catalog lookup raises, remote version resolves. -/
def envAbsent : Env :=
  { onlineVersion := fun _ => .ok "20230810"
    columns := fun _ => .ok []
    description := fun _ => .ok "Test Dataset Description"
    latestVersion := fun _ _ _ => .error "NotFound"
    dataFetch := fun _ _ => .ok () }

/-- No-change scenario: catalog already records the observed version. -/
def envSkip : Env :=
  { onlineVersion := fun _ => .ok "20230810"
    columns := fun _ => .ok []
    description := fun _ => .ok "Test Dataset Description"
    latestVersion := fun _ _ _ => .ok "20230810"
    dataFetch := fun _ _ => .ok () }

/-- Update scenario: catalog records an older version than observed. -/
def envUpdate : Env :=
  { onlineVersion := fun _ => .ok "20230810"
    columns := fun _ => .ok []
    description := fun _ => .ok "Test Dataset Description"
    latestVersion := fun _ _ _ => .ok "20230809"
    dataFetch := fun _ _ => .ok () }

/-- First-dataset version fetch raises; everything else would succeed. -/
def envFetchFail : Env :=
  { onlineVersion := fun _ => .error "ConnectionError"
    columns := fun _ => .ok []
    description := fun _ => .ok ""
    latestVersion := fun _ _ _ => .error "NotFound"
    dataFetch := fun _ _ => .ok () }

/-- Unido variants of the three gate scenarios and the fetch failure. -/
def uenvAbsent : UEnv :=
  { onlineVersion := fun _ => .ok "2023"
    latestVersion := fun _ _ _ => .error "NotFound"
    download := fun _ _ => .ok () }

def uenvSkip : UEnv :=
  { onlineVersion := fun _ => .ok "2023"
    latestVersion := fun _ _ _ => .ok "2023"
    download := fun _ _ => .ok () }

def uenvUpdate : UEnv :=
  { onlineVersion := fun _ => .ok "2023"
    latestVersion := fun _ _ _ => .ok "2022"
    download := fun _ _ => .ok () }

def uenvFetchFail : UEnv :=
  { onlineVersion := fun _ => .error "ConnectionError"
    latestVersion := fun _ _ _ => .error "NotFound"
    download := fun _ _ => .ok () }

/-- The INDSTAT resource of `unido_collect`, schema default left `""`. -/
def rIndstat : UResource :=
  { name := "INDSTAT"
    schema_name := "None"
    task_name := "unido"
    stage := "collect"
    location := "collect/unido/INDSTAT/{version}"
    comment := "Data collected from UNIDO for INDSTAT"
    created_by := "Cæcilia Lind Skov-Jensen"
    license := "Creative Commons Attribution 4.0 International License"
    license_url := "https://stat.unido.org/terms-and-conditions"
    data_version := "" }

/-! ## Claims -/

/-- C7: for every conceptscheme header timestamp of ISO-datetime shape
(a date part free of `'T'`, then `'T'`, then the time part),
`get_data_version` returns the date portion before the `'T'` with the
`'-'` separators removed — in particular `"2023-08-10T00:00:00Z"`
yields `"20230810"`. -/
theorem C7_version_stamp_derivation (date rest : List Char) (h : 'T' ∉ date) :
    get_data_version_stamp (date ++ 'T' :: rest) = date.filter (fun c => c ≠ '-') := by
  unfold get_data_version_stamp
  rw [splitChar_headD, takeWhile_before_sep date rest h]

theorem C7_version_stamp_derivation_witness :
    'T' ∉ "2023-08-10".data ∧
    get_data_version_stamp ("2023-08-10T00:00:00Z".data) = "20230810".data ∧
    ("20230810".data).length = 8 := by
  refine ⟨by decide, ?_, by decide⟩
  have h := C7_version_stamp_derivation "2023-08-10".data "00:00:00Z".data (by decide)
  have e : "2023-08-10T00:00:00Z".data = "2023-08-10".data ++ 'T' :: "00:00:00Z".data := by
    decide
  rw [e, h]
  decide

/-- C9 counterexample: the claim "every failed prettification returns
the original data unmodified rather than raising" is false at the
concrete input `"not json"` with extension `".json"`: the `.json`
branch calls the parser bare, so the parse failure propagates
(`json.JSONDecodeError` in the source, whose own test
`test_prettify_malformed_json` asserts exactly this raise). -/
theorem C9_failure_policy_counterexample :
    prettify_data (fun _ => Except.error "Expecting value") (fun s => Except.ok s)
        (fun s => Except.ok s) (fun s => Except.ok s) "not json" ".json"
      = Except.error "Expecting value" ∧
    prettify_data (fun _ => Except.error "Expecting value") (fun s => Except.ok s)
        (fun s => Except.ok s) (fun s => Except.ok s) "not json" ".json"
      ≠ Except.ok "not json" := by
  have h1 : prettify_data (fun _ => Except.error "Expecting value") (fun s => Except.ok s)
      (fun s => Except.ok s) (fun s => Except.ok s) "not json" ".json"
      = Except.error "Expecting value" := rfl
  exact ⟨h1, fun h => Except.noConfusion (h1.symm.trans h)⟩

/-- C9 (amended): only the `.xml` branch of `prettify_data` returns the
original data unmodified when its parse fails; for `.json`, `.csv` and
`.tsv` a parse failure propagates to the caller. -/
theorem C9_failure_policy_amended :
    (∀ (pj px pc pt : String → Except Err String) (data e : String),
        px data = Except.error e →
        prettify_data pj px pc pt data ".xml" = Except.ok data) ∧
    (∀ (pj px pc pt : String → Except Err String) (data e : String),
        pj data = Except.error e →
        prettify_data pj px pc pt data ".json" = Except.error e) ∧
    (∀ (pj px pc pt : String → Except Err String) (data e : String),
        pc data = Except.error e →
        prettify_data pj px pc pt data ".csv" = Except.error e) ∧
    (∀ (pj px pc pt : String → Except Err String) (data e : String),
        pt data = Except.error e →
        prettify_data pj px pc pt data ".tsv" = Except.error e) := by
  refine ⟨?_, ?_, ?_, ?_⟩
  · intro pj px pc pt data e h
    simp [prettify_data, h]
  · intro pj px pc pt data e h
    simp [prettify_data, h]
  · intro pj px pc pt data e h
    simp [prettify_data, h]
  · intro pj px pc pt data e h
    simp [prettify_data, h]

theorem C9_failure_policy_amended_witness :
    prettify_data (fun s => Except.ok s) (fun _ => Except.error "not well-formed")
        (fun s => Except.ok s) (fun s => Except.ok s) "<root>" ".xml"
      = Except.ok "<root>" ∧
    prettify_data (fun _ => Except.error "Expecting value") (fun s => Except.ok s)
        (fun s => Except.ok s) (fun s => Except.ok s) "not json" ".json"
      = Except.error "Expecting value" ∧
    prettify_data (fun s => Except.ok s) (fun s => Except.ok s)
        (fun _ => Except.error "ParserError") (fun s => Except.ok s) "a,b\nc" ".csv"
      = Except.error "ParserError" ∧
    prettify_data (fun s => Except.ok s) (fun s => Except.ok s)
        (fun s => Except.ok s) (fun _ => Except.error "ParserError") "a\tb" ".tsv"
      = Except.error "ParserError" :=
  ⟨C9_failure_policy_amended.1 _ _ _ _ _ _ rfl,
   C9_failure_policy_amended.2.1 _ _ _ _ _ _ rfl,
   C9_failure_policy_amended.2.2.1 _ _ _ _ _ _ rfl,
   C9_failure_policy_amended.2.2.2 _ _ _ _ _ _ rfl⟩

/-- C10: `get_data_description` returns the pandas
`to_string(index=False)` rendering of the filtered `name` column: with
exactly one matching dataflow row it returns that row's name, and with
no matching row it returns the non-empty placeholder rendering
`"Series([], )"` of an empty Series, not the empty string. -/
theorem C10_description_rendering :
    (∀ (table : List (String × String)) (ds n : String),
        (table.filter (fun r => r.1 = ds)).map (fun r => r.2) = [n] →
        get_data_description table ds = n) ∧
    (∀ (table : List (String × String)) (ds : String),
        table.filter (fun r => r.1 = ds) = [] →
        get_data_description table ds = "Series([], )" ∧
        get_data_description table ds ≠ "") := by
  constructor
  · intro table ds n h
    simp only [get_data_description, h, to_string_noindex]
  · intro table ds h
    constructor
    · simp [get_data_description, h, to_string_noindex]
    · simp [get_data_description, h, to_string_noindex]

theorem C10_description_rendering_witness :
    get_data_description
        [("test_dataset", "Test Dataset Description"),
         ("other_dataset", "Other Dataset Description")] "test_dataset"
      = "Test Dataset Description" ∧
    get_data_description
        [("test_dataset", "Test Dataset Description"),
         ("other_dataset", "Other Dataset Description")] "missing_dataset"
      = "Series([], )" ∧
    get_data_description
        [("test_dataset", "Test Dataset Description"),
         ("other_dataset", "Other Dataset Description")] "missing_dataset"
      ≠ "" := by
  refine ⟨?_, ?_⟩
  · exact C10_description_rendering.1 _ _ "Test Dataset Description" (by decide)
  · have h := C10_description_rendering.2
      [("test_dataset", "Test Dataset Description"),
       ("other_dataset", "Other Dataset Description")] "missing_dataset" (by decide)
    exact ⟨h.1, h.2⟩

/-- C6: failure-policy asymmetry — `get_metadata` always returns
normally (any network/storage failure in its body is caught and an
error is logged), while a failure of the primary payload fetch inside
`get_data` propagates to the caller. -/
theorem C6_failure_policy_asymmetry :
    (∀ (env : MEnv) (id t dir : String),
        (get_metadata env id t dir).2 = Except.ok ()) ∧
    (∀ (env : MEnv) (id t dir e : String),
        (get_metadata_try env id t dir).2 = Except.error e →
        MEvent.logError ∈ (get_metadata env id t dir).1) ∧
    (∀ (f : String → String → Except Err Unit) (d dir e : String),
        f (base_url ++ "data/" ++ d ++ "/?format=SDMX-CSV&compressed=true&i") dir
          = Except.error e →
        get_data f d dir = Except.error e) := by
  refine ⟨?_, ?_, ?_⟩
  · intro env id t dir
    rcases h : get_metadata_try env id t dir with ⟨evs, r⟩
    cases r with
    | ok u => simp [get_metadata, h]
    | error e => simp [get_metadata, h]
  · intro env id t dir e h
    rcases hp : get_metadata_try env id t dir with ⟨evs, r⟩
    rw [hp] at h
    simp only at h
    subst h
    simp [get_metadata, hp]
  · intro f d dir e h
    simpa [get_data] using h

/-- Environment in which the structure-URL HTTP request fails. -/
def mEnvHttpFail : MEnv :=
  { makedirs := fun _ => .ok ()
    datasetsInfo := fun _ => .ok ()
    readIndex := fun _ => .ok [("123", "structure-url-123"), ("456", "structure-url-456")]
    removeFile := fun _ => .ok ()
    httpGet := fun _ => .error "ConnectionError" }

theorem C6_failure_policy_asymmetry_witness :
    (get_metadata mEnvHttpFail "123" "codelist" "save-dir").2 = Except.ok () ∧
    MEvent.logError ∈ (get_metadata mEnvHttpFail "123" "codelist" "save-dir").1 ∧
    get_data (fun _ _ => Except.error "ConnectionError") "ENV_WASBAT" "save-dir"
      = Except.error "ConnectionError" :=
  ⟨C6_failure_policy_asymmetry.1 mEnvHttpFail "123" "codelist" "save-dir",
   C6_failure_policy_asymmetry.2.1 mEnvHttpFail "123" "codelist" "save-dir"
     "ConnectionError" rfl,
   C6_failure_policy_asymmetry.2.2 _ "ENV_WASBAT" "save-dir" "ConnectionError" rfl⟩

/-- C8: when the requested id is absent from the fetched index table,
`get_metadata` performs no further network request (no structure-URL
GET, no zip saved), logs a warning rather than an error, and returns
normally. -/
theorem C8_missing_id_no_fetch (env : MEnv) (id t dir : String)
    (table : List (String × String))
    (h1 : env.makedirs dir = .ok ())
    (h2 : env.datasetsInfo t = .ok ())
    (h3 : env.readIndex t = .ok table)
    (h4 : env.removeFile (t ++ ".csv") = .ok ())
    (h5 : env.removeFile (t ++ ".xml") = .ok ())
    (habs : ∀ r ∈ table, r.1 ≠ id) :
    (get_metadata env id t dir).1 = [MEvent.indexFetch t, MEvent.logWarning] ∧
    (∀ url, MEvent.httpGet url ∉ (get_metadata env id t dir).1) ∧
    (∀ i sd, MEvent.saveZip i sd ∉ (get_metadata env id t dir).1) ∧
    MEvent.logWarning ∈ (get_metadata env id t dir).1 ∧
    MEvent.logError ∉ (get_metadata env id t dir).1 ∧
    (get_metadata env id t dir).2 = Except.ok () := by
  have hfil : table.filter (fun r => r.1 = id) = [] := by
    rw [List.filter_eq_nil_iff]
    intro a ha
    simp [habs a ha]
  have hm : get_metadata env id t dir = ([MEvent.indexFetch t, MEvent.logWarning], .ok ()) := by
    simp [get_metadata, get_metadata_try, h1, h2, h3, h4, h5, hfil]
  rw [hm]
  refine ⟨rfl, ?_, ?_, ?_, ?_, rfl⟩ <;> simp

theorem C8_missing_id_no_fetch_witness :
    (get_metadata mEnvHttpFail "999" "codelist" "save-dir").1
      = [MEvent.indexFetch "codelist", MEvent.logWarning] ∧
    MEvent.logWarning ∈ (get_metadata mEnvHttpFail "999" "codelist" "save-dir").1 ∧
    MEvent.logError ∉ (get_metadata mEnvHttpFail "999" "codelist" "save-dir").1 ∧
    (get_metadata mEnvHttpFail "999" "codelist" "save-dir").2 = Except.ok () := by
  have h := C8_missing_id_no_fetch mEnvHttpFail "999" "codelist" "save-dir"
    [("123", "structure-url-123"), ("456", "structure-url-456")]
    rfl rfl rfl rfl rfl (by decide)
  exact ⟨h.1, h.2.2.2.1, h.2.2.2.2.1, h.2.2.2.2.2⟩

/-- C1: the version-gate decision of both orchestrators. Absent
recorded version (the catalog lookup raises) → SYNC_NEW: the primary
data fetch and the commit both happen; recorded equals observed
(a real, nonempty stamp) → SKIP: no data fetch and no commit; recorded
present, nonempty and different from observed → SYNC_UPDATE: data
fetch and commit both happen. -/
theorem C1_version_gate :
    (∀ (env : Env) (d online : String) (cols : List String) (desc err : String),
        env.onlineVersion d = .ok online →
        env.columns d = .ok cols →
        env.description d = .ok desc →
        env.latestVersion (resName d) "collect" "eurostat_waste_collect" = .error err →
        env.dataFetch d (eurostatLocation d "00000000") = .ok () →
        (collect_one env d).1.any isDataFetch = true ∧
        (collect_one env d).1.any isCommit = true) ∧
    (∀ (env : Env) (d online : String) (cols : List String) (desc : String),
        env.onlineVersion d = .ok online →
        env.columns d = .ok cols →
        env.description d = .ok desc →
        env.latestVersion (resName d) "collect" "eurostat_waste_collect" = .ok online →
        online ≠ "" →
        (collect_one env d).1.any isDataFetch = false ∧
        (collect_one env d).1.any isCommit = false) ∧
    (∀ (env : Env) (d online v : String) (cols : List String) (desc : String),
        env.onlineVersion d = .ok online →
        env.columns d = .ok cols →
        env.description d = .ok desc →
        env.latestVersion (resName d) "collect" "eurostat_waste_collect" = .ok v →
        v ≠ "" →
        v ≠ online →
        env.dataFetch d (eurostatLocation d "00000000") = .ok () →
        (collect_one env d).1.any isDataFetch = true ∧
        (collect_one env d).1.any isCommit = true) ∧
    (∀ (env : UEnv) (r : UResource) (online err : String),
        env.onlineVersion r.name = .ok online →
        env.latestVersion r.name r.stage r.task_name = .error err →
        env.download r.name r.location = .ok () →
        (unido_collect_one env r).1.any isUDownload = true ∧
        (unido_collect_one env r).1.any isUCommit = true) ∧
    (∀ (env : UEnv) (r : UResource) (online : String),
        env.onlineVersion r.name = .ok online →
        env.latestVersion r.name r.stage r.task_name = .ok online →
        online ≠ "" →
        (unido_collect_one env r).1.any isUDownload = false ∧
        (unido_collect_one env r).1.any isUCommit = false) ∧
    (∀ (env : UEnv) (r : UResource) (online v : String),
        env.onlineVersion r.name = .ok online →
        env.latestVersion r.name r.stage r.task_name = .ok v →
        v ≠ "" →
        v ≠ online →
        env.download r.name r.location = .ok () →
        (unido_collect_one env r).1.any isUDownload = true ∧
        (unido_collect_one env r).1.any isUCommit = true) := by
  refine ⟨?_, ?_, ?_, ?_, ?_, ?_⟩
  · intro env d online cols desc err hv hc hd hl hf
    rw [collect_one_new env d online cols desc err hv hc hd hl hf]
    simp [preEvents, isDataFetch, isCommit, List.any_append]
  · intro env d online cols desc hv hc hd hl hne
    rw [collect_one_skip env d online cols desc hv hc hd hl hne]
    simp [preEvents, isDataFetch, isCommit]
  · intro env d online v cols desc hv hc hd hl hvne hdiff hf
    rw [collect_one_update env d online v cols desc hv hc hd hl hvne hdiff hf]
    simp [preEvents, isDataFetch, isCommit, List.any_append]
  · intro env r online err hv hl hf
    rw [unido_collect_one_new env r online err hv hl hf]
    simp [isUDownload, isUCommit]
  · intro env r online hv hl hne
    rw [unido_collect_one_skip env r online hv hl hne]
    simp [isUDownload, isUCommit]
  · intro env r online v hv hl hvne hdiff hf
    rw [unido_collect_one_update env r online v hv hl hvne hdiff hf]
    simp [isUDownload, isUCommit]

theorem C1_version_gate_witness :
    ((collect_one envAbsent "ENV_WASBAT").1.any isDataFetch = true ∧
     (collect_one envAbsent "ENV_WASBAT").1.any isCommit = true) ∧
    ((collect_one envSkip "ENV_WASBAT").1.any isDataFetch = false ∧
     (collect_one envSkip "ENV_WASBAT").1.any isCommit = false) ∧
    ((collect_one envUpdate "ENV_WASBAT").1.any isDataFetch = true ∧
     (collect_one envUpdate "ENV_WASBAT").1.any isCommit = true) ∧
    ((unido_collect_one uenvAbsent rIndstat).1.any isUDownload = true ∧
     (unido_collect_one uenvAbsent rIndstat).1.any isUCommit = true) ∧
    ((unido_collect_one uenvSkip rIndstat).1.any isUDownload = false ∧
     (unido_collect_one uenvSkip rIndstat).1.any isUCommit = false) ∧
    ((unido_collect_one uenvUpdate rIndstat).1.any isUDownload = true ∧
     (unido_collect_one uenvUpdate rIndstat).1.any isUCommit = true) :=
  ⟨C1_version_gate.1 envAbsent "ENV_WASBAT" "20230810" [] "Test Dataset Description"
     "NotFound" rfl rfl rfl rfl rfl,
   C1_version_gate.2.1 envSkip "ENV_WASBAT" "20230810" [] "Test Dataset Description"
     rfl rfl rfl rfl (by decide),
   C1_version_gate.2.2.1 envUpdate "ENV_WASBAT" "20230810" "20230809" []
     "Test Dataset Description" rfl rfl rfl rfl (by decide) (by decide) rfl,
   C1_version_gate.2.2.2.1 uenvAbsent rIndstat "2023" "NotFound" rfl rfl rfl,
   C1_version_gate.2.2.2.2.1 uenvSkip rIndstat "2023" rfl rfl (by decide),
   C1_version_gate.2.2.2.2.2 uenvUpdate rIndstat "2023" "2022" rfl rfl
     (by decide) (by decide) rfl⟩

/-- C2: evaluation of the orchestrators at the first-sync scenario
(no catalog record, remote version `"20230810"`).  Contrary to the
claim, the storage location is NOT recomputed after the version is set:
`eurostat_collect` commits a descriptor with
`data_version = "20230810"` but `location =
"collect/eurostat/ENV_WASBAT/00000000"` (line 312 runs before the
version is known and is never rerun), and fetches the data into that
sentinel directory; `unido_collect` commits the literal, never
substituted template `"collect/unido/INDSTAT/{version}"`. -/
theorem C2_location_not_recomputed :
    Event.commit (syncResource "ENV_WASBAT" "20230810" "Test Dataset Description")
      ∈ (collect_one envAbsent "ENV_WASBAT").1 ∧
    (syncResource "ENV_WASBAT" "20230810" "Test Dataset Description").data_version
      = "20230810" ∧
    (syncResource "ENV_WASBAT" "20230810" "Test Dataset Description").location
      = "collect/eurostat/ENV_WASBAT/00000000" ∧
    (syncResource "ENV_WASBAT" "20230810" "Test Dataset Description").location
      ≠ "collect/eurostat/ENV_WASBAT/20230810" ∧
    Event.getData "ENV_WASBAT" "collect/eurostat/ENV_WASBAT/00000000"
      ∈ (collect_one envAbsent "ENV_WASBAT").1 ∧
    UEvent.commit { rIndstat with data_version := "2023" }
      ∈ (unido_collect_one uenvAbsent rIndstat).1 ∧
    ({ rIndstat with data_version := "2023" } : UResource).location
      = "collect/unido/INDSTAT/{version}" := by
  refine ⟨by decide, by decide, by decide, by decide, by decide, by decide, by decide⟩

/-- C3: evaluation of the orchestrators' dataset loops at an input
where the first dataset's version fetch raises.  Contrary to the
claim, no subsequent dataset is processed: the exception propagates
out of the loop (there is no per-dataset handler), so the only event
is the first dataset's version-fetch attempt and the whole pass
aborts with the error. -/
theorem C3_loop_not_isolated :
    (eurostat_collect envFetchFail).1 = [Event.fetchVersion "ENPS_ENV_WASGENH"] ∧
    (eurostat_collect envFetchFail).2 = Except.error "ConnectionError" ∧
    (unido_collect uenvFetchFail "").1 = [UEvent.fetchVersion "INDSTAT"] ∧
    (unido_collect uenvFetchFail "").2 = Except.error "ConnectionError" := by
  refine ⟨by decide, rfl, by decide, rfl⟩

/-- C4: a descriptor is handed to the catalog's add-or-update
operation iff the recorded version is absent or differs from the
observed one (for real, nonempty stamps, given the pre-gate fetches
and the data download succeed), in both orchestrators; and a run in
which the catalog already records every dataset's observed version
performs zero catalog commits and returns `false`. -/
theorem C4_commit_only_on_change :
    (∀ (env : Env) (d online : String) (cols : List String) (desc : String),
        env.onlineVersion d = .ok online →
        env.columns d = .ok cols →
        env.description d = .ok desc →
        env.dataFetch d (eurostatLocation d "00000000") = .ok () →
        recordedOf env d ≠ some "" →
        ((collect_one env d).1.any isCommit = true ↔ recordedOf env d ≠ some online)) ∧
    (∀ (env : UEnv) (r : UResource) (online : String),
        env.onlineVersion r.name = .ok online →
        env.download r.name r.location = .ok () →
        urecordedOf env r ≠ some "" →
        ((unido_collect_one env r).1.any isUCommit = true ↔
          urecordedOf env r ≠ some online)) ∧
    (∀ env : Env, (∀ d ∈ datasets, SkipHyp env d) →
        (eurostat_collect env).1.any isCommit = false ∧
        (eurostat_collect env).2 = .ok false) := by
  refine ⟨?_, ?_, ?_⟩
  · intro env d online cols desc hv hc hd hf hne
    cases hE : env.latestVersion (resName d) "collect" "eurostat_waste_collect" with
    | error err =>
      have hrec : recordedOf env d = none := by simp [recordedOf, hE]
      rw [collect_one_new env d online cols desc err hv hc hd hE hf]
      simp [hrec, preEvents, isCommit, List.any_append]
    | ok v =>
      have hrec : recordedOf env d = some v := by simp [recordedOf, hE]
      have hvne : v ≠ "" := by
        intro hveq
        exact hne (by rw [hrec, hveq])
      by_cases hvo : v = online
      · subst hvo
        rw [collect_one_skip env d v cols desc hv hc hd hE hvne]
        simp [hrec, preEvents, isCommit]
      · rw [collect_one_update env d online v cols desc hv hc hd hE hvne hvo hf]
        simp [hrec, preEvents, isCommit, List.any_append, hvo]
  · intro env r online hv hf hne
    cases hE : env.latestVersion r.name r.stage r.task_name with
    | error err =>
      have hrec : urecordedOf env r = none := by simp [urecordedOf, hE]
      rw [unido_collect_one_new env r online err hv hE hf]
      simp [hrec, isUCommit]
    | ok v =>
      have hrec : urecordedOf env r = some v := by simp [urecordedOf, hE]
      have hvne : v ≠ "" := by
        intro hveq
        exact hne (by rw [hrec, hveq])
      by_cases hvo : v = online
      · subst hvo
        rw [unido_collect_one_skip env r v hv hE hvne]
        simp [hrec, isUCommit]
      · rw [unido_collect_one_update env r online v hv hE hvne hvo hf]
        simp [hrec, isUCommit, hvo]
  · intro env h
    have hrw := collect_loop_skip env datasets false h
    unfold eurostat_collect
    rw [hrw]
    exact ⟨flatMap_preEvents_any datasets isCommit (fun d => by simp [preEvents, isCommit]),
           rfl⟩

theorem C4_commit_only_on_change_witness :
    ((collect_one envUpdate "ENV_WASBAT").1.any isCommit = true ↔
      recordedOf envUpdate "ENV_WASBAT" ≠ some "20230810") ∧
    ((unido_collect_one uenvUpdate rIndstat).1.any isUCommit = true ↔
      urecordedOf uenvUpdate rIndstat ≠ some "2023") ∧
    ((eurostat_collect envSkip).1.any isCommit = false ∧
      (eurostat_collect envSkip).2 = .ok false) :=
  ⟨C4_commit_only_on_change.1 envUpdate "ENV_WASBAT" "20230810" []
     "Test Dataset Description" rfl rfl rfl rfl (by decide),
   C4_commit_only_on_change.2.1 uenvUpdate rIndstat "2023" rfl rfl (by decide),
   C4_commit_only_on_change.2.2 envSkip
     (fun _ _ => ⟨"20230810", [], "Test Dataset Description", rfl, rfl, rfl, rfl,
       by decide⟩)⟩

/-- C5: when the catalog's recorded version matches the observed one
for every configured dataset (and the pre-gate fetches succeed), the
whole eurostat pass performs zero `get_data` calls, zero
`get_metadata` calls and zero catalog commits, and returns `false`. -/
theorem C5_skip_makes_no_calls (env : Env) (h : ∀ d ∈ datasets, SkipHyp env d) :
    (eurostat_collect env).1.any isDataFetch = false ∧
    (eurostat_collect env).1.any isMetadataFetch = false ∧
    (eurostat_collect env).1.any isCommit = false ∧
    (eurostat_collect env).2 = .ok false := by
  have hrw := collect_loop_skip env datasets false h
  unfold eurostat_collect
  rw [hrw]
  refine ⟨?_, ?_, ?_, rfl⟩ <;>
    exact flatMap_preEvents_any datasets _
      (fun d => by simp [preEvents, isDataFetch, isMetadataFetch, isCommit])

theorem C5_skip_makes_no_calls_witness :
    (eurostat_collect envSkip).1.any isDataFetch = false ∧
    (eurostat_collect envSkip).1.any isMetadataFetch = false ∧
    (eurostat_collect envSkip).1.any isCommit = false ∧
    (eurostat_collect envSkip).2 = .ok false :=
  C5_skip_makes_no_calls envSkip
    (fun _ _ => ⟨"20230810", [], "Test Dataset Description", rfl, rfl, rfl, rfl,
      by decide⟩)

end Aau
